import Mathlib

/-
  Verification development for the SeedFrames 2D game engine
  (fixed-timestep loop, entity/component model, AABB physics with
  quadtree broad phase and layer filtering).

  The definitions below are a shallow embedding of the JavaScript source.
  JS numbers are modelled as rationals on the live arithmetic paths; the
  quadtree's `intersects` helper reads the fields `x`, `y`, `width`,
  `height` of both arguments, and inserted items carry collider bounds
  records that have no `x`/`y` fields, so those reads yield `undefined`.
  We model a possibly-missing JS number as `Option ℚ` (`none` standing
  for `undefined`, and for the `NaN` produced by arithmetic on it): both
  make every `<`/`>` comparison evaluate to `false`, which is the only
  way the embedded code observes them.
-/

namespace SeedFrames

/-- Possibly-missing JS number: `none` models `undefined`/`NaN`. -/
abbrev JNum := Option ℚ

/-- JS `+` on possibly-missing numbers: anything with `undefined`/`NaN` gives `NaN`. -/
def jadd : JNum → JNum → JNum
  | some a, some b => some (a + b)
  | _, _ => none

/-- JS `>` : any comparison involving `undefined`/`NaN` is `false`. -/
def jgt : JNum → JNum → Bool
  | some a, some b => decide (b < a)
  | _, _ => false

/-- JS `<` : any comparison involving `undefined`/`NaN` is `false`. -/
def jlt : JNum → JNum → Bool
  | some a, some b => decide (a < b)
  | _, _ => false

/-- A plain `{x, y, width, height}` rectangle (quadtree node regions and
search areas carry all four fields as real numbers). -/
structure Rect where
  x : ℚ
  y : ℚ
  width : ℚ
  height : ℚ
deriving DecidableEq

/-- Result record of `Collider.getBounds()`:
`{left, right, top, bottom, centerX, centerY, width, height}` — note there
is no `x`/`y` field. -/
structure CBounds where
  left : ℚ
  right : ℚ
  top : ℚ
  bottom : ℚ
  centerX : ℚ
  centerY : ℚ
  width : ℚ
  height : ℚ
deriving DecidableEq

/-- The four fields `Quadtree.intersects` reads from either argument. -/
structure JSBounds where
  x : JNum
  y : JNum
  width : JNum
  height : JNum
deriving DecidableEq

/-- View of a node region / search area as seen by `Quadtree.intersects`. -/
def Rect.toJS (r : Rect) : JSBounds :=
  { x := some r.x, y := some r.y, width := some r.width, height := some r.height }

/-- View of a collider-bounds record as seen by `Quadtree.intersects`:
the `x`/`y` reads come back `undefined`. -/
def CBounds.toJS (b : CBounds) : JSBounds :=
  { x := none, y := none, width := some b.width, height := some b.height }

/-- Collider component state (the fields the physics engine reads). -/
structure Collider where
  enabled : Bool
  isTrigger : Bool
  layer : String
  width : ℚ
  height : ℚ
  collidingWith : List ℕ
deriving DecidableEq

/-- A game object bearing exactly one collider, as consumed by the
physics engine: identifier, active flag, transform fields and a stand-in
`velocity` (the `Player` component field read by the shadowed resolver). -/
structure GameObject where
  id : ℕ
  active : Bool
  posX : ℚ
  posY : ℚ
  rot : ℚ
  scaleX : ℚ
  scaleY : ℚ
  velX : ℚ
  velY : ℚ
  col : Collider
deriving DecidableEq

/-- `Collider.getBounds()`: half-extents scaled by the transform's scale,
centered on the transform position. -/
def GameObject.getBounds (o : GameObject) : CBounds :=
  let width := o.col.width * o.scaleX
  let height := o.col.height * o.scaleY
  { left := o.posX - width / 2
    right := o.posX + width / 2
    top := o.posY - height / 2
    bottom := o.posY + height / 2
    centerX := o.posX
    centerY := o.posY
    width := width
    height := height }

/-! ## Physics layers (collision matrix) -/

namespace PhysicsLayers

/-- The fixed `PhysicsLayers.layers` name → index table. -/
def layers : String → Option ℕ
  | "Default" => some 0
  | "Player" => some 1
  | "Enemy" => some 2
  | "PlayerBullet" => some 3
  | "EnemyBullet" => some 4
  | "Collectible" => some 5
  | "Environment" => some 6
  | "UI" => some 7
  | _ => none

/-- A layer argument: a name string or a numeric index
(`typeof layerA === "string" ? this.layers[layerA] : layerA`). -/
inductive LayerRef where
  | name (s : String)
  | idx (n : ℕ)
deriving DecidableEq

/-- Resolution of a layer argument to a numeric id; an unknown name
gives `undefined` (`none`). -/
def resolveLayer : LayerRef → Option ℕ
  | .name s => layers s
  | .idx n => some n

/-- JS `<=` on the resolved ids: comparisons with `undefined` are `false`. -/
def jleN : Option ℕ → Option ℕ → Bool
  | some a, some b => decide (a ≤ b)
  | _, _ => false

/-- `getMatrixKey`: the string key `"a-b"` is injective on the ordered
pair of printed components, so we model it by the pair itself (with
`none` standing for a printed `undefined`). -/
def getMatrixKey (a b : Option ℕ) : Option ℕ × Option ℕ :=
  if jleN a b then (a, b) else (b, a)

/-- The `collisionMatrix` `Map`; later `set`s shadow earlier ones, so we
model it as an association list consed at the front. -/
abbrev CollisionMatrix := List ((Option ℕ × Option ℕ) × Bool)

/-- `PhysicsLayers.setCollisionRule`. -/
def setCollisionRule (m : CollisionMatrix) (a b : LayerRef) (v : Bool) : CollisionMatrix :=
  (getMatrixKey (resolveLayer a) (resolveLayer b), v) :: m

/-- `Map.get` on the collision matrix. -/
def matrixGet (m : CollisionMatrix) (k : Option ℕ × Option ℕ) : Option Bool :=
  (m.find? (fun e => e.1 = k)).map (fun e => e.2)

/-- `PhysicsLayers.canCollide`: stored rule, `|| false` default. -/
def canCollide (m : CollisionMatrix) (a b : LayerRef) : Bool :=
  (matrixGet m (getMatrixKey (resolveLayer a) (resolveLayer b))).getD false

/-- The matrix produced by `PhysicsLayers.initializeDefaults()`. -/
def defaultMatrix : CollisionMatrix :=
  let m := setCollisionRule [] (.name "Player") (.name "Enemy") true
  let m := setCollisionRule m (.name "Player") (.name "Collectible") true
  let m := setCollisionRule m (.name "Player") (.name "Environment") true
  let m := setCollisionRule m (.name "PlayerBullet") (.name "Enemy") true
  let m := setCollisionRule m (.name "EnemyBullet") (.name "Player") true
  let m := setCollisionRule m (.name "Enemy") (.name "Environment") true
  let m := setCollisionRule m (.name "PlayerBullet") (.name "Environment") true
  setCollisionRule m (.name "EnemyBullet") (.name "Environment") true

end PhysicsLayers

/-! ## Quadtree (broad phase) -/

/-- An item inserted into the quadtree: the `object` reference (modelled
by the entity id) together with the collider bounds captured at insert
time. -/
structure Item where
  objId : ℕ
  bounds : CBounds
deriving DecidableEq

/-- A quadtree node. `leaf` is an unsubdivided node (`divided === false`,
`nodes === []`); `node` carries the four children created by
`subdivide()` in their array order (top-left, top-right, bottom-left,
bottom-right). Both keep their own `objects` list. -/
inductive Quadtree where
  | leaf (bounds : Rect) (maxObjects maxDepth depth : ℕ) (objects : List Item)
  | node (bounds : Rect) (maxObjects maxDepth depth : ℕ) (objects : List Item)
      (c0 c1 c2 c3 : Quadtree)
deriving DecidableEq

namespace Quadtree

/-- `Quadtree.intersects(boundsA, boundsB)`: the four-comparison
separating test, reading `x`/`y`/`width`/`height` of both records with
JS semantics for missing fields. -/
def intersects (A B : JSBounds) : Bool :=
  !(jgt A.x (jadd B.x B.width) || jlt (jadd A.x A.width) B.x ||
    jgt A.y (jadd B.y B.height) || jlt (jadd A.y A.height) B.y)

/-- The node's region rectangle. -/
def bounds : Quadtree → Rect
  | leaf b _ _ _ _ => b
  | node b _ _ _ _ _ _ _ _ => b

/-- `subdivide()`: split the region into four equal quadrants, each
inheriting `maxObjects`/`maxDepth` with `depth + 1`; the node keeps its
own objects list. -/
def subdivide : Quadtree → Quadtree
  | leaf b mo md d objs =>
      let w := b.width / 2
      let h := b.height / 2
      node b mo md d objs
        (leaf ⟨b.x, b.y, w, h⟩ mo md (d + 1) [])
        (leaf ⟨b.x + w, b.y, w, h⟩ mo md (d + 1) [])
        (leaf ⟨b.x, b.y + h, w, h⟩ mo md (d + 1) [])
        (leaf ⟨b.x + w, b.y + h, w, h⟩ mo md (d + 1) [])
  | t => t

/-- `insert(item)`. The `fuel` parameter bounds the JS call stack; every
use in this development supplies ample fuel, and exhausted fuel returns
the tree unchanged with `false` (a call that returns `false` in the
source never mutates the tree). Mirrors the source: reject when the
region test fails; append locally when below `maxObjects` and not
divided; otherwise subdivide on demand, try the four children in order,
and fall back to appending to the local list. -/
def insert : ℕ → Quadtree → Item → Quadtree × Bool
  | 0, t, _ => (t, false)
  | fuel + 1, t, item =>
    if !(intersects (t.bounds).toJS item.bounds.toJS) then (t, false)
    else
      match subdivideIfLeafFull t item with
      | .inl t' => t'
      | .inr (b, mo, md, d, objs, k0, k1, k2, k3) =>
        let r0 := insert fuel k0 item
        if r0.2 then (node b mo md d objs r0.1 k1 k2 k3, true) else
        let r1 := insert fuel k1 item
        if r1.2 then (node b mo md d objs r0.1 r1.1 k2 k3, true) else
        let r2 := insert fuel k2 item
        if r2.2 then (node b mo md d objs r0.1 r1.1 r2.1 k3, true) else
        let r3 := insert fuel k3 item
        if r3.2 then (node b mo md d objs r0.1 r1.1 r2.1 r3.1, true)
        else (node b mo md d (objs ++ [item]) r0.1 r1.1 r2.1 r3.1, true)
where
  /-- The pre-recursion part of `insert` on an intersecting node: an
  undivided node below its threshold appends locally (`inl`); otherwise
  the node (subdivided on demand if it was a leaf) hands its pieces to
  the child-insertion loop (`inr`). -/
  subdivideIfLeafFull (t : Quadtree) (item : Item) :
      (Quadtree × Bool) ⊕
        (Rect × ℕ × ℕ × ℕ × List Item × Quadtree × Quadtree × Quadtree × Quadtree) :=
    match t with
    | leaf b mo md d objs =>
        if objs.length < mo then .inl (leaf b mo md d (objs ++ [item]), true)
        else
          match subdivide (leaf b mo md d objs) with
          | node b' mo' md' d' objs' k0 k1 k2 k3 => .inr (b', mo', md', d', objs', k0, k1, k2, k3)
          | t' => .inl (t', true)
    | node b mo md d objs k0 k1 k2 k3 => .inr (b, mo, md, d, objs, k0, k1, k2, k3)

/-- `retrieve(searchArea)`: empty when the node region misses the search
area; otherwise the locally stored items passing the item test, followed
by the children's results in order. -/
def retrieve : Quadtree → Rect → List Item
  | leaf b _ _ _ objs, searchArea =>
      if !(intersects b.toJS searchArea.toJS) then []
      else objs.filter (fun it => intersects searchArea.toJS it.bounds.toJS)
  | node b _ _ _ objs k0 k1 k2 k3, searchArea =>
      if !(intersects b.toJS searchArea.toJS) then []
      else
        (objs.filter (fun it => intersects searchArea.toJS it.bounds.toJS)) ++
          retrieve k0 searchArea ++ retrieve k1 searchArea ++
          retrieve k2 searchArea ++ retrieve k3 searchArea

/-- Largest `depth` field occurring anywhere in the tree. -/
def maxDepthIn : Quadtree → ℕ
  | leaf _ _ _ d _ => d
  | node _ _ _ d _ k0 k1 k2 k3 =>
      max d (max (max (maxDepthIn k0) (maxDepthIn k1)) (max (maxDepthIn k2) (maxDepthIn k3)))

end Quadtree

/-! ## Physics engine -/

/-- The collision event calls observed on colliders during a physics
tick: `enter s o` is a call of `onCollisionEnter` on the collider of
entity `s` with argument entity `o`; likewise `exitEv` for
`onCollisionExit` and `coll` for the per-tick `onCollision`
notification. -/
inductive Ev where
  | enter (selfId otherId : ℕ)
  | exitEv (selfId otherId : ℕ)
  | coll (selfId otherId : ℕ)
deriving DecidableEq, BEq

namespace PhysicsEngine

/-- `PhysicsEngine.checkCollision`: the four-inequality AABB overlap
test on the two colliders' current bounds. -/
def checkCollision (objA objB : GameObject) : Bool :=
  let boundsA := objA.getBounds
  let boundsB := objB.getBounds
  !(decide (boundsA.right < boundsB.left) || decide (boundsA.left > boundsB.right) ||
    decide (boundsA.bottom < boundsB.top) || decide (boundsA.top > boundsB.bottom))

/-- `PhysicsEngine.resolveCollision` — the second of the two same-name
definitions in the class body, which is the one JavaScript keeps: skip
triggers, compute the axis overlaps, and push the two entities apart by
half the smaller overlap in opposite directions along that axis. -/
def resolveCollision (objA objB : GameObject) : GameObject × GameObject :=
  if objA.col.isTrigger || objB.col.isTrigger then (objA, objB)
  else
    let boundsA := objA.getBounds
    let boundsB := objB.getBounds
    let overlapX := min (boundsA.right - boundsB.left) (boundsB.right - boundsA.left)
    let overlapY := min (boundsA.bottom - boundsB.top) (boundsB.bottom - boundsA.top)
    if overlapX < overlapY then
      let moveX := (overlapX / 2) * (if boundsA.centerX < boundsB.centerX then -1 else 1)
      ({ objA with posX := objA.posX + moveX }, { objB with posX := objB.posX - moveX })
    else
      let moveY := (overlapY / 2) * (if boundsA.centerY < boundsB.centerY then -1 else 1)
      ({ objA with posY := objA.posY + moveY }, { objB with posY := objB.posY - moveY })

/-- The first, shadowed `resolveCollision` definition (dead code under
JavaScript's last-definition-wins rule for duplicate class methods):
resolves only `"Player"` vs `"Platform"` layer pairs, moves only the
player, and zeroes downward vertical velocity on an upward correction.
Embedded for comparison with the live definition. -/
def resolveCollisionShadowed (objA objB : GameObject) : GameObject × GameObject :=
  if objA.col.isTrigger || objB.col.isTrigger then (objA, objB)
  else
    let pp : Option (GameObject × GameObject) :=
      if objA.col.layer = "Player" && objB.col.layer = "Platform" then some (objA, objB)
      else if objB.col.layer = "Player" && objA.col.layer = "Platform" then some (objB, objA)
      else none
    match pp with
    | none => (objA, objB)
    | some (player, platform) =>
      let playerBounds := player.getBounds
      let platformBounds := platform.getBounds
      let overlapX := min (playerBounds.right - platformBounds.left)
        (platformBounds.right - playerBounds.left)
      let overlapY := min (playerBounds.bottom - platformBounds.top)
        (platformBounds.bottom - playerBounds.top)
      let player' :=
        if overlapX > 2 ∧ overlapY > 2 then
          if overlapX < overlapY then
            let moveX := overlapX * (if playerBounds.centerX < platformBounds.centerX then -1 else 1)
            { player with posX := player.posX + moveX * (1/2) }
          else
            if playerBounds.centerY < platformBounds.centerY then
              let p := { player with posY := platformBounds.top - playerBounds.height / 2 }
              if p.velY > 0 then { p with velY := 0 } else p
            else player
        else player
      if objA.col.layer = "Player" && objB.col.layer = "Platform" then (player', platform)
      else (platform, player')

/-- `getPairKey(idA, idB)`: order-independent composite of the two
entity ids, smaller first (the source compares the generated id strings
under a fixed total order; we model ids by naturals under `≤`). -/
def getPairKey (idA idB : ℕ) : ℕ × ℕ :=
  if idA < idB then (idA, idB) else (idB, idA)

/-- The `collisionPairs` `Map`: insertion-ordered association list from
pair key to the stored `{objA, objB}` references (modelled by their
ids in the order the pair was created). -/
abbrev Pairs := List ((ℕ × ℕ) × (ℕ × ℕ))

/-- Engine configuration and persistent state between ticks. -/
structure EngineState where
  collisionPairs : Pairs
  quadtreeBounds : Rect
  maxObjectsPerNode : ℕ
  maxDepth : ℕ
deriving DecidableEq

/-- A fresh `PhysicsEngine`: empty pair map, world bounds
`{x: 0, y: 0, width: 2000, height: 2000}`, threshold 10, max depth 8. -/
def initialEngine : EngineState :=
  { collisionPairs := []
    quadtreeBounds := ⟨0, 0, 2000, 2000⟩
    maxObjectsPerNode := 10
    maxDepth := 8 }

/-- Call-stack budget handed to `Quadtree.insert`; ample for every tree
built in this development. -/
def insertFuel : ℕ := 100

/-- `updateQuadtree(objects)`: rebuild the tree from scratch and insert
an item (object reference plus bounds captured now) for every active
object whose collider is enabled. -/
def updateQuadtree (eng : EngineState) (objects : List GameObject) : Quadtree :=
  objects.foldl
    (fun t o =>
      if o.active && o.col.enabled then
        (Quadtree.insert insertFuel t ⟨o.id, o.getBounds⟩).1
      else t)
    (Quadtree.leaf eng.quadtreeBounds eng.maxObjectsPerNode eng.maxDepth 0 [])

/-- `getCollisionCandidates(obj)`: query the tree with the object's
current bounds written as an `{x, y, width, height}` search area and
return the stored object references (ids). -/
def getCollisionCandidates (qt : Quadtree) (obj : GameObject) : List ℕ :=
  let bounds := obj.getBounds
  let searchArea : Rect :=
    ⟨bounds.left, bounds.top, bounds.right - bounds.left, bounds.bottom - bounds.top⟩
  (Quadtree.retrieve qt searchArea).map (fun it => it.objId)

/-- Look an entity up by id in the scene list (JS object references all
alias the single live entity; scenes in this development have unique
ids). -/
def getObj (scene : List GameObject) (i : ℕ) : Option GameObject :=
  scene.find? (fun o => o.id == i)

/-- Write back a mutated entity by id. -/
def setObj (scene : List GameObject) (o : GameObject) : List GameObject :=
  scene.map (fun x => if x.id == o.id then o else x)

/-- `Collider.onCollision(other)`: emit the per-tick notification
(`sendMessage` and the `coll` event) and, when the other entity's id is
not yet in `collidingWith`, fire `onCollisionEnter` again and record the
id. Returns the collider-owner's updated state. -/
def onCollision (o : GameObject) (otherId : ℕ) : List Ev × GameObject :=
  if otherId ∈ o.col.collidingWith then ([Ev.coll o.id otherId], o)
  else
    ([Ev.coll o.id otherId, Ev.enter o.id otherId],
      { o with col := { o.col with collidingWith := otherId :: o.col.collidingWith } })

/-- Mutable state threaded through the candidate scan of one tick. -/
structure TickState where
  scene : List GameObject
  pairs : Pairs
  current : List (ℕ × ℕ)
  evs : List Ev
deriving DecidableEq

/-- One iteration of the inner candidate loop of `PhysicsEngine.update`
for outer entity `aId` and candidate `bId`: the self/active/enabled/layer
gates, then the narrow-phase branch (enter bookkeeping, `onCollision`
notifications and resolution) or the exit branch. -/
def stepCandidate (matrix : PhysicsLayers.CollisionMatrix) (aId : ℕ)
    (st : TickState) (bId : ℕ) : TickState :=
  match getObj st.scene aId, getObj st.scene bId with
  | some a, some b =>
    if aId == bId then st
    else if !b.active then st
    else if !b.col.enabled then st
    else if !(PhysicsLayers.canCollide matrix (.name a.col.layer) (.name b.col.layer)) then st
    else
      let pairKey := getPairKey aId bId
      if checkCollision a b then
        let current := st.current ++ [pairKey]
        let isNew := !(st.pairs.any (fun e => e.1 == pairKey))
        let enterEvs := if isNew then [Ev.enter aId bId, Ev.enter bId aId] else []
        let pairs := if isNew then st.pairs ++ [(pairKey, (aId, bId))] else st.pairs
        let r1 := onCollision a bId
        let r2 := onCollision b aId
        let resolved := resolveCollision r1.2 r2.2
        { scene := setObj (setObj st.scene resolved.1) resolved.2
          pairs := pairs
          current := current
          evs := st.evs ++ enterEvs ++ r1.1 ++ r2.1 }
      else
        match st.pairs.find? (fun e => e.1 == pairKey) with
        | some (_, (pa, pb)) =>
            { st with
                pairs := st.pairs.filter (fun e => !(e.1 == pairKey))
                evs := st.evs ++ [Ev.exitEv pa pb, Ev.exitEv pb pa] }
        | none => st
  | _, _ => st

/-- `PhysicsEngine.update(scene)`: collect the collidable objects,
rebuild the quadtree, run the candidate scan for every active outer
entity with an enabled collider, then sweep away any surviving pair
whose key was not touched this tick (silently — no events). Returns the
engine state, the mutated scene and the collision events in firing
order. -/
def update (matrix : PhysicsLayers.CollisionMatrix) (eng : EngineState)
    (scene : List GameObject) : EngineState × List GameObject × List Ev :=
  let collidable := scene.map (fun o => o.id)
  let qt := updateQuadtree eng scene
  let final := collidable.foldl
    (fun (st : TickState) aId =>
      match getObj st.scene aId with
      | none => st
      | some a =>
        if !a.active then st
        else if !a.col.enabled then st
        else
          let candidates := getCollisionCandidates qt a
          candidates.foldl (fun st2 bId => stepCandidate matrix aId st2 bId) st)
    { scene := scene, pairs := eng.collisionPairs, current := [], evs := [] }
  let sweptPairs := final.pairs.filter (fun e => final.current.any (fun k => k == e.1))
  ({ eng with collisionPairs := sweptPairs }, final.scene, final.evs)

end PhysicsEngine

/-! ## Game loop -/

/-- Observable actions of one `GameLoop._loop` callback:
`inputUpdate` is a call of `InputManager.update()` (the edge-state
advance copying current key states into `previousKeys`), `sceneUpdate`
and `physicsUpdate` are the two halves of one simulation step, `render`
is the single draw. -/
inductive LoopEv where
  | inputUpdate
  | sceneUpdate
  | physicsUpdate
  | render
deriving DecidableEq, BEq

/-- `GameLoop` per-instance state (times in milliseconds, as in the
source; `timeStep = 1000 / 60`, `maxFrameTime = 250`). -/
structure LoopState where
  isRunning : Bool
  lastTime : ℚ
  accumulator : ℚ
  fps : ℕ
  frameCount : ℕ
  lastFpsTime : ℚ
deriving DecidableEq

/-- `this.timeStep = 1000 / 60`. -/
def timeStep : ℚ := 1000 / 60

/-- `this.maxFrameTime = 250`. -/
def maxFrameTime : ℚ := 250

/-- The `while (this.accumulator >= this.timeStep)` drain: each
iteration performs one scene update then one physics update and
subtracts `timeStep`. Returns the final accumulator and the emitted
events. -/
def drainLoop (acc : ℚ) : ℚ × List LoopEv :=
  if h : timeStep ≤ acc then
    let p := drainLoop (acc - timeStep)
    (p.1, [LoopEv.sceneUpdate, LoopEv.physicsUpdate] ++ p.2)
  else (acc, [])
termination_by Nat.floor (acc / timeStep)
decreasing_by
  have h1 : (1 : ℚ) ≤ acc / timeStep := by
    rw [le_div_iff₀ (by norm_num [timeStep])]
    simpa using h
  have h2 : (acc - timeStep) / timeStep = acc / timeStep - 1 := by
    rw [sub_div, div_self (by norm_num [timeStep] : (timeStep : ℚ) ≠ 0)]
  rw [h2]
  have h3 : (1 : ℕ) ≤ Nat.floor (acc / timeStep) := Nat.le_floor (by exact_mod_cast h1)
  calc Nat.floor (acc / timeStep - 1) = Nat.floor (acc / timeStep - (1 : ℕ)) := by norm_num
    _ = Nat.floor (acc / timeStep) - 1 := Nat.floor_sub_nat _ 1
    _ < Nat.floor (acc / timeStep) := by omega

/-- `GameLoop._loop(currentTime)` for a single platform callback: bail
out when stopped; compute and clamp the delta, accumulate it, advance
the FPS bookkeeping, then (in the `try` block) advance the input
edge-state, drain fixed steps, and render; after scheduling the next
callback, advance the input edge-state a second time. Returns the new
loop state and the emitted events in order. -/
def loopCallback (s : LoopState) (currentTime : ℚ) : LoopState × List LoopEv :=
  if !s.isRunning then (s, [])
  else
    let deltaTime := currentTime - s.lastTime
    let deltaTime := if deltaTime > maxFrameTime then maxFrameTime else deltaTime
    let acc0 := s.accumulator + deltaTime
    let frameCount := s.frameCount + 1
    let fpsState : ℕ × ℕ × ℚ :=
      if currentTime - s.lastFpsTime ≥ 1000 then (frameCount, 0, currentTime)
      else (s.fps, frameCount, s.lastFpsTime)
    let drained := drainLoop acc0
    ({ isRunning := s.isRunning
       lastTime := currentTime
       accumulator := drained.1
       fps := fpsState.1
       frameCount := fpsState.2.1
       lastFpsTime := fpsState.2.2 },
      [LoopEv.inputUpdate] ++ drained.2 ++ [LoopEv.render, LoopEv.inputUpdate])

/-! ## GameObject component container

The `components` list / `componentCache` slice of `GameObject`, with the
polymorphic-lookup operations. A component instance is identified the
way JavaScript does — by reference — modelled here by a numeric
identity `cid`; `className` is its concrete constructor name (the key
`addComponent` caches under). The JS `instanceof` test against a
requested class is supplied as a Boolean relation `instOf c T`
("the runtime type of `c` is, or derives from, the class named `T`").
Lifecycle hooks (`awake`/`start`/`onDestroy`) and ownership bookkeeping
do not touch the list or the cache and are not modelled. -/

/-- A component instance: reference identity plus concrete class name. -/
structure Comp where
  cid : ℕ
  className : String
deriving DecidableEq

/-- The `components` array and the `componentCache` `Map` of one
`GameObject`. -/
structure ComponentStore where
  components : List Comp
  componentCache : List (String × List Comp)
deriving DecidableEq

namespace ComponentStore

/-- `componentCache.get(name)`. -/
def cacheGet (cache : List (String × List Comp)) (k : String) : Option (List Comp) :=
  (cache.find? (fun e => e.1 = k)).map (fun e => e.2)

/-- `componentCache.set(name, bucket)` (replace in place, or add). -/
def cacheSet (cache : List (String × List Comp)) (k : String) (v : List Comp) :
    List (String × List Comp) :=
  if cache.any (fun e => e.1 = k) then
    cache.map (fun e => if e.1 = k then (k, v) else e)
  else cache ++ [(k, v)]

/-- Append one component to the bucket for `k`, creating it if absent
(`if (!has(k)) set(k, []); get(k).push(c)`). -/
def cachePush (cache : List (String × List Comp)) (k : String) (c : Comp) :
    List (String × List Comp) :=
  cacheSet cache k ((cacheGet cache k).getD [] ++ [c])

/-- `addComponent(component)`: append to the ordered list and register
in the cache under the component's concrete class name. -/
def addComponent (go : ComponentStore) (c : Comp) : ComponentStore :=
  { components := go.components ++ [c]
    componentCache := cachePush go.componentCache c.className c }

/-- `getComponent(ComponentClass)`: exact-name cache hit when the bucket
is nonempty; otherwise a linear `instanceof` scan whose first match is
pushed into the requested name's bucket. Returns the result together
with the (possibly cache-mutated) store. -/
def getComponent (instOf : Comp → String → Bool) (go : ComponentStore) (tName : String) :
    Option Comp × ComponentStore :=
  let scan : Option Comp × ComponentStore :=
    match go.components.find? (fun c => instOf c tName) with
    | some c => (some c, { go with componentCache := cachePush go.componentCache tName c })
    | none => (none, go)
  match cacheGet go.componentCache tName with
  | some (c :: _) => (some c, go)
  | _ => scan

/-- `indexOf` + `splice(i, 1)`: drop the first occurrence (by reference
identity) of `cid` from a list. -/
def eraseFirst (l : List Comp) (cid : ℕ) : List Comp :=
  match l with
  | [] => []
  | x :: xs => if x.cid == cid then xs else x :: eraseFirst xs cid

/-- `removeComponent(ComponentClass)`: locate via `getComponent`, remove
from the ordered list, and purge the instance from every cache bucket. -/
def removeComponent (instOf : Comp → String → Bool) (go : ComponentStore) (tName : String) :
    ComponentStore :=
  let found := getComponent instOf go tName
  match found.1 with
  | none => found.2
  | some c =>
      { components := eraseFirst found.2.components c.cid
        componentCache := found.2.componentCache.map (fun e => (e.1, eraseFirst e.2 c.cid)) }

end ComponentStore

/-! ## Concrete scenes used in the theorems -/

/-- A standard 32×32 axis-aligned collider entity at a given position. -/
def mkObj (i : ℕ) (x y : ℚ) (layer : String) (isTrigger : Bool) : GameObject :=
  { id := i, active := true, posX := x, posY := y, rot := 0,
    scaleX := 1, scaleY := 1, velX := 0, velY := 0,
    col := { enabled := true, isTrigger := isTrigger, layer := layer,
             width := 32, height := 32, collidingWith := [] } }

/-- One physics tick under the default-initialized layer matrix, stated
on an engine-state/scene pair. -/
def tick (s : PhysicsEngine.EngineState × List GameObject) :
    (PhysicsEngine.EngineState × List GameObject) × List Ev :=
  let r := PhysicsEngine.update PhysicsLayers.defaultMatrix s.1 s.2
  ((r.1, r.2.1), r.2.2)

/-- Pair-tracking scenario: two overlapping trigger colliders on the
`Player` and `Enemy` layers (a layer-permitted pair; triggers keep the
overlap stationary across ticks since triggers are never resolved). -/
def c1A : GameObject := mkObj 1 100 100 "Player" true

/-- Second entity of the pair-tracking scenario. -/
def c1B : GameObject := mkObj 2 100 100 "Enemy" true

/-- Initial engine/scene state of the pair-tracking scenario. -/
def c1Start : PhysicsEngine.EngineState × List GameObject :=
  (PhysicsEngine.initialEngine, [c1A, c1B])

/-- Engine/scene state after the first overlapping tick. -/
def c1S1 : PhysicsEngine.EngineState × List GameObject := (tick c1Start).1

/-- `c1Run n` = state and accumulated events after `1 + n` consecutive
ticks with the pair held overlapping. -/
def c1Run : ℕ → (PhysicsEngine.EngineState × List GameObject) × List Ev
  | 0 => tick c1Start
  | n + 1 =>
      let p := c1Run n
      let q := tick p.1
      (q.1, p.2 ++ q.2)

/-- External scene mutation: entity 2 is moved far away (still inside
the world bounds) before the next tick. -/
def moveFar2 (scene : List GameObject) : List GameObject :=
  scene.map (fun o => if o.id == 2 then { o with posX := 500, posY := 500 } else o)

/-- External scene mutation: entity 2 is deactivated before the next
tick. -/
def deactivate2 (scene : List GameObject) : List GameObject :=
  scene.map (fun o => if o.id == 2 then { o with active := false } else o)

/-- External scene mutation: entity 2's collider is disabled before the
next tick. -/
def disable2 (scene : List GameObject) : List GameObject :=
  scene.map (fun o => if o.id == 2 then { o with col := { o.col with enabled := false } } else o)

/-- Broad-phase scenario: ten colliders near (100, 100) fill the root
node to its threshold, then two mutually overlapping colliders on a
layer-permitted pair (`Player`/`Enemy`) sit near (1600, 1600). -/
def c2Scene : List GameObject :=
  (List.range 10).map (fun i => mkObj (i + 1) 100 100 "Default" true) ++
    [mkObj 11 1600 1600 "Player" true, mkObj 12 1600 1600 "Enemy" true]

/-- The quadtree `PhysicsEngine.update` builds for `c2Scene` (default
world bounds, threshold 10, max depth 8). -/
def c2qt : Quadtree := PhysicsEngine.updateQuadtree PhysicsEngine.initialEngine c2Scene

/-- Depth scenario: a quadtree constructed with `maxObjects = 1` and
`maxDepth = 1`, receiving three identical-bounds items. -/
def c7Tree : Quadtree :=
  let it := fun (i : ℕ) => (⟨i, (mkObj i 100 100 "Default" true).getBounds⟩ : Item)
  (Quadtree.insert 100
    (Quadtree.insert 100
      (Quadtree.insert 100 (Quadtree.leaf ⟨0, 0, 2000, 2000⟩ 1 1 0 []) (it 1)).1
      (it 2)).1
    (it 3)).1

/-- Resolution scenario: a solid `Player`-layer box at the origin
overlapping a solid `Platform`-layer box 20 pixels to its right. -/
def c3Player : GameObject := mkObj 1 0 0 "Player" false

/-- The platform of the resolution scenario. -/
def c3Platform : GameObject := mkObj 2 20 0 "Platform" false

/-- Epsilon scenario: two solid boxes whose horizontal overlap is
exactly 1 pixel (at or below the claimed 2-pixel epsilon). -/
def c4A : GameObject := mkObj 1 0 0 "Default" false

/-- Second box of the epsilon scenario. -/
def c4B : GameObject := mkObj 2 31 0 "Default" false

/-- A freshly started `GameLoop` (as after `start()` at time 0). -/
def loopStart : LoopState :=
  { isRunning := true, lastTime := 0, accumulator := 0,
    fps := 0, frameCount := 0, lastFpsTime := 0 }

/-- Concrete `instanceof` relation for the component-lookup witness: a
`PlatformerPlayer` instance is an instance of `PlatformerPlayer`, of
`Player` and of `Component`, mirroring the source class hierarchy. -/
def instOfDemo : Comp → String → Bool := fun c t =>
  c.className == "PlatformerPlayer" &&
    (t == "PlatformerPlayer" || t == "Player" || t == "Component")

/-- Concrete component instance for the component-lookup witness. -/
def compDemo : Comp := ⟨7, "PlatformerPlayer"⟩

/-- The horizontal overlap the resolvers compute:
`min(A.right − B.left, B.right − A.left)`. -/
def overlapXOf (a b : GameObject) : ℚ :=
  min (a.getBounds.right - b.getBounds.left) (b.getBounds.right - a.getBounds.left)

/-- The vertical overlap the resolvers compute:
`min(A.bottom − B.top, B.bottom − A.top)`. -/
def overlapYOf (a b : GameObject) : ℚ :=
  min (a.getBounds.bottom - b.getBounds.top) (b.getBounds.bottom - a.getBounds.top)

/-! ## Theorems -/

section Theorems

attribute [local semireducible] Rat.add Rat.sub Rat.mul Rat.inv

open PhysicsEngine PhysicsLayers

/-- C9: for all layers X and Y, given by name or numeric index (i.e.
resolving to a numeric layer id), and any state of the collision
matrix — hence after any sequence of `setCollisionRule` calls —
`canCollide(X, Y)` equals `canCollide(Y, X)`, because rules are stored
and looked up under an order-independent (min-index, max-index) key. -/
theorem canCollide_symm (m : CollisionMatrix) (X Y : LayerRef)
    (hX : (resolveLayer X).isSome = true) (hY : (resolveLayer Y).isSome = true) :
    canCollide m X Y = canCollide m Y X := by
  obtain ⟨x, hx⟩ := Option.isSome_iff_exists.mp hX
  obtain ⟨y, hy⟩ := Option.isSome_iff_exists.mp hY
  have key_symm : getMatrixKey (resolveLayer X) (resolveLayer Y) =
      getMatrixKey (resolveLayer Y) (resolveLayer X) := by
    rw [hx, hy]
    unfold getMatrixKey jleN
    rcases le_or_lt x y with hxy | hxy
    · rcases le_or_lt y x with hyx | hyx
      · have : x = y := le_antisymm hxy hyx
        simp [this]
      · simp [hxy, not_le.mpr hyx]
    · simp [not_le.mpr hxy, le_of_lt hxy]
  unfold canCollide
  rw [key_symm]

/-- C9 witness: symmetry at the concrete pair (`"Player"`, `"Enemy"`)
under the default-initialized matrix. -/
theorem canCollide_symm_witness :
    (resolveLayer (.name "Player")).isSome = true ∧
      (resolveLayer (.name "Enemy")).isSome = true ∧
      canCollide defaultMatrix (.name "Player") (.name "Enemy") =
        canCollide defaultMatrix (.name "Enemy") (.name "Player") :=
  ⟨by decide, by decide,
    canCollide_symm defaultMatrix (.name "Player") (.name "Enemy") (by decide) (by decide)⟩

/-- C2: failing input for broad-phase soundness. In `c2Scene` the two
active entities 11 and 12 carry enabled colliders with truly
overlapping AABBs on a layer-permitted pair (`Player`/`Enemy`), yet the
quadtree built by `updateQuadtree` yields neither as a collision
candidate of the other (the root holds its first ten items, and the
overflow items land in the top-left child regardless of their actual
position, because the item-versus-region test reads `x`/`y` fields the
collider bounds records do not carry), so `PhysicsEngine.update` never
runs the narrow-phase test on the pair and fires no events for it. -/
theorem broadphase_misses_true_overlap :
    (getObj c2Scene 11).all (fun o => o.active && o.col.enabled) = true ∧
      (getObj c2Scene 12).all (fun o => o.active && o.col.enabled) = true ∧
      canCollide defaultMatrix (.name "Player") (.name "Enemy") = true ∧
      checkCollision (mkObj 11 1600 1600 "Player" true) (mkObj 12 1600 1600 "Enemy" true) = true ∧
      (getCollisionCandidates c2qt (mkObj 12 1600 1600 "Enemy" true)).contains 11 = false ∧
      (getCollisionCandidates c2qt (mkObj 11 1600 1600 "Player" true)).contains 12 = false ∧
      (update defaultMatrix initialEngine c2Scene).2.2.count (Ev.enter 11 12) = 0 ∧
      (update defaultMatrix initialEngine c2Scene).2.2.count (Ev.enter 12 11) = 0 := by
  decide

/-- C7: failing input for the depth bound. A quadtree constructed with
`maxObjects = 1` and `maxDepth = 1` subdivides again after three
identical-bounds insertions — `insert` never consults `maxDepth` — so
the resulting tree contains a node of depth 2 > `maxDepth`. -/
theorem quadtree_depth_exceeds_maxDepth :
    Quadtree.maxDepthIn c7Tree = 2 := by
  decide

/-- C1 counterexample: in the pair-tracking scenario, on the very first
overlapping tick `onCollisionEnter` fires twice on each collider (once
from the engine's new-pair branch and once more from
`Collider.onCollision`'s own bookkeeping), not exactly once; and when
the overlap ends because entity 2 is deactivated, the stale-pair sweep
removes the pair entry silently: `onCollisionExit` fires zero times,
not exactly once. -/
theorem collision_events_counterexample :
    (c1Run 0).2.count (Ev.enter 1 2) = 2 ∧
      (c1Run 0).2.count (Ev.enter 2 1) = 2 ∧
      ¬((c1Run 0).2.count (Ev.enter 1 2) = 1) ∧
      (tick ((c1Run 0).1.1, deactivate2 (c1Run 0).1.2)).2.count (Ev.exitEv 1 2) = 0 ∧
      (tick ((c1Run 0).1.1, deactivate2 (c1Run 0).1.2)).2.count (Ev.exitEv 2 1) = 0 ∧
      (tick ((c1Run 0).1.1, deactivate2 (c1Run 0).1.2)).1.1.collisionPairs = [] := by
  decide

/-- With the pair already tracked and the trigger colliders stationary,
a further overlapping tick leaves the engine state and scene unchanged. -/
theorem c1_fixpoint : (tick c1S1).1 = c1S1 := by decide

/-- State after `1 + n` overlapping ticks is the state after the first. -/
theorem c1Run_state (n : ℕ) : (c1Run n).1 = c1S1 := by
  induction n with
  | zero => rfl
  | succ n ih =>
      show (tick (c1Run n).1).1 = c1S1
      rw [ih, c1_fixpoint]

/-- Event counts after `1 + n` overlapping ticks: two `onCollisionEnter`
per collider (both from the first tick) and no `onCollisionExit`. -/
theorem c1Run_counts (n : ℕ) :
    (c1Run n).2.count (Ev.enter 1 2) = 2 ∧ (c1Run n).2.count (Ev.enter 2 1) = 2 ∧
      (c1Run n).2.count (Ev.exitEv 1 2) = 0 ∧ (c1Run n).2.count (Ev.exitEv 2 1) = 0 := by
  induction n with
  | zero => decide
  | succ n ih =>
      have hev : (c1Run (n + 1)).2 = (c1Run n).2 ++ (tick (c1Run n).1).2 := rfl
      rw [hev, c1Run_state n]
      refine ⟨?_, ?_, ?_, ?_⟩ <;>
        rw [List.count_append] <;>
        simp [ih.1, ih.2.1, ih.2.2.1, ih.2.2.2] <;> decide

/-- C1 (amended): for a pair of active entities with enabled,
layer-permitted colliders held overlapping across `1 + n` consecutive
physics ticks, `onCollisionEnter` fires exactly twice on each collider
— both firings on the first overlapping tick (one from the engine's
new-pair branch, one from `Collider.onCollision`'s bookkeeping) — and
no further enter fires while the overlap persists.  When the overlap
then ends with both sides still scanned (both active, colliders
enabled, still broad-phase candidates — here entity 2 moves far away),
`onCollisionExit` fires exactly once on each collider and the pair
entry is removed.  When the overlap instead ends because entity 2 is
deactivated or its collider is disabled, the stale-pair sweep removes
the entry silently: no `onCollisionExit` ever fires. -/
theorem collision_pair_event_discipline (n : ℕ) :
    (((c1Run n).2 ++ (tick ((c1Run n).1.1, moveFar2 (c1Run n).1.2)).2).count (Ev.enter 1 2) = 2 ∧
      ((c1Run n).2 ++ (tick ((c1Run n).1.1, moveFar2 (c1Run n).1.2)).2).count (Ev.enter 2 1) = 2 ∧
      ((c1Run n).2 ++ (tick ((c1Run n).1.1, moveFar2 (c1Run n).1.2)).2).count (Ev.exitEv 1 2) = 1 ∧
      ((c1Run n).2 ++ (tick ((c1Run n).1.1, moveFar2 (c1Run n).1.2)).2).count (Ev.exitEv 2 1) = 1 ∧
      (tick ((c1Run n).1.1, moveFar2 (c1Run n).1.2)).1.1.collisionPairs = []) ∧
    (((c1Run n).2 ++ (tick ((c1Run n).1.1, deactivate2 (c1Run n).1.2)).2).count (Ev.enter 1 2) = 2 ∧
      ((c1Run n).2 ++ (tick ((c1Run n).1.1, deactivate2 (c1Run n).1.2)).2).count (Ev.exitEv 1 2) = 0 ∧
      ((c1Run n).2 ++ (tick ((c1Run n).1.1, deactivate2 (c1Run n).1.2)).2).count (Ev.exitEv 2 1) = 0 ∧
      (tick ((c1Run n).1.1, deactivate2 (c1Run n).1.2)).1.1.collisionPairs = []) ∧
    (((c1Run n).2 ++ (tick ((c1Run n).1.1, disable2 (c1Run n).1.2)).2).count (Ev.exitEv 1 2) = 0 ∧
      ((c1Run n).2 ++ (tick ((c1Run n).1.1, disable2 (c1Run n).1.2)).2).count (Ev.exitEv 2 1) = 0 ∧
      (tick ((c1Run n).1.1, disable2 (c1Run n).1.2)).1.1.collisionPairs = []) := by
  have hc := c1Run_counts n
  rw [c1Run_state n]
  refine ⟨⟨?_, ?_, ?_, ?_, ?_⟩, ⟨?_, ?_, ?_, ?_⟩, ⟨?_, ?_, ?_⟩⟩ <;>
    first
      | (rw [List.count_append]
         simp [hc.1, hc.2.1, hc.2.2.1, hc.2.2.2] <;> decide)
      | decide

/-- Closed form of the live resolver in the horizontal case. -/
theorem resolveCollision_x (a b : GameObject)
    (ha : a.col.isTrigger = false) (hb : b.col.isTrigger = false)
    (hxy : overlapXOf a b < overlapYOf a b) :
    resolveCollision a b =
      ({ a with posX := a.posX +
          (overlapXOf a b / 2) * (if a.getBounds.centerX < b.getBounds.centerX then -1 else 1) },
       { b with posX := b.posX -
          (overlapXOf a b / 2) * (if a.getBounds.centerX < b.getBounds.centerX then -1 else 1) }) := by
  unfold resolveCollision
  simp only [ha, hb, Bool.or_self, Bool.false_eq_true, if_false]
  rw [if_pos (by exact hxy)]
  rfl

/-- Closed form of the live resolver in the vertical (or tied) case. -/
theorem resolveCollision_y (a b : GameObject)
    (ha : a.col.isTrigger = false) (hb : b.col.isTrigger = false)
    (hxy : ¬(overlapXOf a b < overlapYOf a b)) :
    resolveCollision a b =
      ({ a with posY := a.posY +
          (overlapYOf a b / 2) * (if a.getBounds.centerY < b.getBounds.centerY then -1 else 1) },
       { b with posY := b.posY -
          (overlapYOf a b / 2) * (if a.getBounds.centerY < b.getBounds.centerY then -1 else 1) }) := by
  unfold resolveCollision
  simp only [ha, hb, Bool.or_self, Bool.false_eq_true, if_false]
  rw [if_neg (by exact hxy)]
  rfl

/-- C10: the live (second) `resolveCollision` on two solid colliders
modifies only the two entities' transform positions: exactly one
coordinate of each — the x coordinates when the horizontal overlap is
smaller, the y coordinates otherwise — displacing the two entities by
half that overlap in opposite directions; identifiers, active flags,
velocities, rotations, scales, colliders and the other coordinate are
all left unchanged. -/
theorem resolveCollision_frame_effect (a b : GameObject)
    (ha : a.col.isTrigger = false) (hb : b.col.isTrigger = false) :
    ((resolveCollision a b).1.id = a.id ∧ (resolveCollision a b).1.active = a.active ∧
      (resolveCollision a b).1.rot = a.rot ∧ (resolveCollision a b).1.scaleX = a.scaleX ∧
      (resolveCollision a b).1.scaleY = a.scaleY ∧ (resolveCollision a b).1.velX = a.velX ∧
      (resolveCollision a b).1.velY = a.velY ∧ (resolveCollision a b).1.col = a.col) ∧
    ((resolveCollision a b).2.id = b.id ∧ (resolveCollision a b).2.active = b.active ∧
      (resolveCollision a b).2.rot = b.rot ∧ (resolveCollision a b).2.scaleX = b.scaleX ∧
      (resolveCollision a b).2.scaleY = b.scaleY ∧ (resolveCollision a b).2.velX = b.velX ∧
      (resolveCollision a b).2.velY = b.velY ∧ (resolveCollision a b).2.col = b.col) ∧
    (overlapXOf a b < overlapYOf a b →
      (resolveCollision a b).1.posY = a.posY ∧ (resolveCollision a b).2.posY = b.posY ∧
      (resolveCollision a b).1.posX - a.posX = -((resolveCollision a b).2.posX - b.posX) ∧
      ((resolveCollision a b).1.posX - a.posX = overlapXOf a b / 2 ∨
        (resolveCollision a b).1.posX - a.posX = -(overlapXOf a b / 2))) ∧
    (¬(overlapXOf a b < overlapYOf a b) →
      (resolveCollision a b).1.posX = a.posX ∧ (resolveCollision a b).2.posX = b.posX ∧
      (resolveCollision a b).1.posY - a.posY = -((resolveCollision a b).2.posY - b.posY) ∧
      ((resolveCollision a b).1.posY - a.posY = overlapYOf a b / 2 ∨
        (resolveCollision a b).1.posY - a.posY = -(overlapYOf a b / 2))) := by
  by_cases hxy : overlapXOf a b < overlapYOf a b
  · rw [resolveCollision_x a b ha hb hxy]
    refine ⟨⟨rfl, rfl, rfl, rfl, rfl, rfl, rfl, rfl⟩,
      ⟨rfl, rfl, rfl, rfl, rfl, rfl, rfl, rfl⟩, fun _ => ⟨rfl, rfl, by ring, ?_⟩,
      fun hn => absurd hxy hn⟩
    by_cases hc : a.getBounds.centerX < b.getBounds.centerX
    · right; rw [if_pos hc]; ring
    · left; rw [if_neg hc]; ring
  · rw [resolveCollision_y a b ha hb hxy]
    refine ⟨⟨rfl, rfl, rfl, rfl, rfl, rfl, rfl, rfl⟩,
      ⟨rfl, rfl, rfl, rfl, rfl, rfl, rfl, rfl⟩, fun hp => absurd hp hxy,
      fun _ => ⟨rfl, rfl, by ring, ?_⟩⟩
    by_cases hc : a.getBounds.centerY < b.getBounds.centerY
    · right; rw [if_pos hc]; ring
    · left; rw [if_neg hc]; ring

/-- C10 witness: the frame-effect theorem applied to the two concrete
solid boxes of the epsilon scenario. -/
theorem resolveCollision_frame_effect_witness :
    c4A.col.isTrigger = false ∧ c4B.col.isTrigger = false ∧
      (((resolveCollision c4A c4B).1.id = c4A.id ∧
          (resolveCollision c4A c4B).1.active = c4A.active ∧
          (resolveCollision c4A c4B).1.rot = c4A.rot ∧
          (resolveCollision c4A c4B).1.scaleX = c4A.scaleX ∧
          (resolveCollision c4A c4B).1.scaleY = c4A.scaleY ∧
          (resolveCollision c4A c4B).1.velX = c4A.velX ∧
          (resolveCollision c4A c4B).1.velY = c4A.velY ∧
          (resolveCollision c4A c4B).1.col = c4A.col) ∧
        ((resolveCollision c4A c4B).2.id = c4B.id ∧
          (resolveCollision c4A c4B).2.active = c4B.active ∧
          (resolveCollision c4A c4B).2.rot = c4B.rot ∧
          (resolveCollision c4A c4B).2.scaleX = c4B.scaleX ∧
          (resolveCollision c4A c4B).2.scaleY = c4B.scaleY ∧
          (resolveCollision c4A c4B).2.velX = c4B.velX ∧
          (resolveCollision c4A c4B).2.velY = c4B.velY ∧
          (resolveCollision c4A c4B).2.col = c4B.col) ∧
        (overlapXOf c4A c4B < overlapYOf c4A c4B →
          (resolveCollision c4A c4B).1.posY = c4A.posY ∧
          (resolveCollision c4A c4B).2.posY = c4B.posY ∧
          (resolveCollision c4A c4B).1.posX - c4A.posX =
            -((resolveCollision c4A c4B).2.posX - c4B.posX) ∧
          ((resolveCollision c4A c4B).1.posX - c4A.posX = overlapXOf c4A c4B / 2 ∨
            (resolveCollision c4A c4B).1.posX - c4A.posX = -(overlapXOf c4A c4B / 2))) ∧
        (¬(overlapXOf c4A c4B < overlapYOf c4A c4B) →
          (resolveCollision c4A c4B).1.posX = c4A.posX ∧
          (resolveCollision c4A c4B).2.posX = c4B.posX ∧
          (resolveCollision c4A c4B).1.posY - c4A.posY =
            -((resolveCollision c4A c4B).2.posY - c4B.posY) ∧
          ((resolveCollision c4A c4B).1.posY - c4A.posY = overlapYOf c4A c4B / 2 ∨
            (resolveCollision c4A c4B).1.posY - c4A.posY = -(overlapYOf c4A c4B / 2)))) :=
  ⟨rfl, rfl, resolveCollision_frame_effect c4A c4B rfl rfl⟩

/-- C1 witness: the event-discipline theorem instantiated with zero
extra overlapping ticks. -/
theorem collision_pair_event_discipline_witness :
    (((c1Run 0).2 ++ (tick ((c1Run 0).1.1, moveFar2 (c1Run 0).1.2)).2).count (Ev.enter 1 2) = 2 ∧
      ((c1Run 0).2 ++ (tick ((c1Run 0).1.1, moveFar2 (c1Run 0).1.2)).2).count (Ev.enter 2 1) = 2 ∧
      ((c1Run 0).2 ++ (tick ((c1Run 0).1.1, moveFar2 (c1Run 0).1.2)).2).count (Ev.exitEv 1 2) = 1 ∧
      ((c1Run 0).2 ++ (tick ((c1Run 0).1.1, moveFar2 (c1Run 0).1.2)).2).count (Ev.exitEv 2 1) = 1 ∧
      (tick ((c1Run 0).1.1, moveFar2 (c1Run 0).1.2)).1.1.collisionPairs = []) ∧
    (((c1Run 0).2 ++ (tick ((c1Run 0).1.1, deactivate2 (c1Run 0).1.2)).2).count (Ev.enter 1 2) = 2 ∧
      ((c1Run 0).2 ++ (tick ((c1Run 0).1.1, deactivate2 (c1Run 0).1.2)).2).count (Ev.exitEv 1 2) = 0 ∧
      ((c1Run 0).2 ++ (tick ((c1Run 0).1.1, deactivate2 (c1Run 0).1.2)).2).count (Ev.exitEv 2 1) = 0 ∧
      (tick ((c1Run 0).1.1, deactivate2 (c1Run 0).1.2)).1.1.collisionPairs = []) ∧
    (((c1Run 0).2 ++ (tick ((c1Run 0).1.1, disable2 (c1Run 0).1.2)).2).count (Ev.exitEv 1 2) = 0 ∧
      ((c1Run 0).2 ++ (tick ((c1Run 0).1.1, disable2 (c1Run 0).1.2)).2).count (Ev.exitEv 2 1) = 0 ∧
      (tick ((c1Run 0).1.1, disable2 (c1Run 0).1.2)).1.1.collisionPairs = []) :=
  collision_pair_event_discipline 0

/-- C3 counterexample: invoking `resolveCollision` on the concrete
overlapping solid `Player`/`Platform` pair moves the platform (from
x = 20 to x = 26) and corrects the player by only half the overlap
(to x = −6), because the second, generic definition of
`resolveCollision` shadows the first: the platform is not immovable and
the player is not fully corrected. -/
theorem player_platform_resolution_counterexample :
    c3Player.col.layer = "Player" ∧ c3Platform.col.layer = "Platform" ∧
      c3Player.col.isTrigger = false ∧ c3Platform.col.isTrigger = false ∧
      checkCollision c3Player c3Platform = true ∧
      (resolveCollision c3Player c3Platform).2.posX ≠ c3Platform.posX ∧
      (resolveCollision c3Player c3Platform).1.posX = -6 ∧
      (resolveCollision c3Player c3Platform).2.posX = 26 ∧
      resolveCollisionShadowed c3Player c3Platform ≠ resolveCollision c3Player c3Platform := by
  decide

/-- C3 (amended): the `resolveCollision` that is actually invoked is the
second of the two same-name class methods (JavaScript keeps the later
definition), so a solid `Player`-versus-`Platform` pair receives the
generic treatment: the correction is split evenly — the two entities'
displacements cancel, and the platform itself moves by half the
smaller-axis overlap — and neither entity's velocity is ever modified;
the platform-immovable/velocity-zeroing special case is dead code. -/
theorem player_platform_resolution_amended (a b : GameObject)
    (hla : a.col.layer = "Player") (hlb : b.col.layer = "Platform")
    (ha : a.col.isTrigger = false) (hb : b.col.isTrigger = false) :
    ((resolveCollision a b).1.velX = a.velX ∧ (resolveCollision a b).1.velY = a.velY ∧
      (resolveCollision a b).2.velX = b.velX ∧ (resolveCollision a b).2.velY = b.velY) ∧
    ((resolveCollision a b).1.posX - a.posX) + ((resolveCollision a b).2.posX - b.posX) = 0 ∧
    ((resolveCollision a b).1.posY - a.posY) + ((resolveCollision a b).2.posY - b.posY) = 0 ∧
    (overlapXOf a b < overlapYOf a b →
      ((resolveCollision a b).2.posX - b.posX = overlapXOf a b / 2 ∨
        (resolveCollision a b).2.posX - b.posX = -(overlapXOf a b / 2))) ∧
    (¬(overlapXOf a b < overlapYOf a b) →
      ((resolveCollision a b).2.posY - b.posY = overlapYOf a b / 2 ∨
        (resolveCollision a b).2.posY - b.posY = -(overlapYOf a b / 2))) := by
  by_cases hxy : overlapXOf a b < overlapYOf a b
  · rw [resolveCollision_x a b ha hb hxy]
    refine ⟨⟨rfl, rfl, rfl, rfl⟩, by ring, by ring, fun _ => ?_, fun hn => absurd hxy hn⟩
    by_cases hc : a.getBounds.centerX < b.getBounds.centerX
    · left; rw [if_pos hc]; ring
    · right; rw [if_neg hc]; ring
  · rw [resolveCollision_y a b ha hb hxy]
    refine ⟨⟨rfl, rfl, rfl, rfl⟩, by ring, by ring, fun hp => absurd hp hxy, fun _ => ?_⟩
    by_cases hc : a.getBounds.centerY < b.getBounds.centerY
    · left; rw [if_pos hc]; ring
    · right; rw [if_neg hc]; ring

/-- C3 witness: the amended theorem applied to the concrete
player/platform pair. -/
theorem player_platform_resolution_amended_witness :
    c3Player.col.layer = "Player" ∧ c3Platform.col.layer = "Platform" ∧
      c3Player.col.isTrigger = false ∧ c3Platform.col.isTrigger = false ∧
      (((resolveCollision c3Player c3Platform).1.velX = c3Player.velX ∧
          (resolveCollision c3Player c3Platform).1.velY = c3Player.velY ∧
          (resolveCollision c3Player c3Platform).2.velX = c3Platform.velX ∧
          (resolveCollision c3Player c3Platform).2.velY = c3Platform.velY) ∧
        ((resolveCollision c3Player c3Platform).1.posX - c3Player.posX) +
            ((resolveCollision c3Player c3Platform).2.posX - c3Platform.posX) = 0 ∧
        ((resolveCollision c3Player c3Platform).1.posY - c3Player.posY) +
            ((resolveCollision c3Player c3Platform).2.posY - c3Platform.posY) = 0 ∧
        (overlapXOf c3Player c3Platform < overlapYOf c3Player c3Platform →
          ((resolveCollision c3Player c3Platform).2.posX - c3Platform.posX =
              overlapXOf c3Player c3Platform / 2 ∨
            (resolveCollision c3Player c3Platform).2.posX - c3Platform.posX =
              -(overlapXOf c3Player c3Platform / 2))) ∧
        (¬(overlapXOf c3Player c3Platform < overlapYOf c3Player c3Platform) →
          ((resolveCollision c3Player c3Platform).2.posY - c3Platform.posY =
              overlapYOf c3Player c3Platform / 2 ∨
            (resolveCollision c3Player c3Platform).2.posY - c3Platform.posY =
              -(overlapYOf c3Player c3Platform / 2)))) :=
  ⟨rfl, rfl, rfl, rfl, player_platform_resolution_amended c3Player c3Platform rfl rfl rfl rfl⟩

/-- C4 counterexample: the concrete solid pair `c4A`/`c4B` overlaps by
exactly 1 pixel horizontally — at or below the claimed couple-of-pixels
epsilon — yet invoking collision resolution still changes both
entities' positions. -/
theorem epsilon_threshold_counterexample :
    c4A.col.isTrigger = false ∧ c4B.col.isTrigger = false ∧
      checkCollision c4A c4B = true ∧
      overlapXOf c4A c4B = 1 ∧
      (resolveCollision c4A c4B).1.posX ≠ c4A.posX ∧
      (resolveCollision c4A c4B).2.posX ≠ c4B.posX := by
  decide

/-- C4 (amended): the invoked `resolveCollision` (the second, shadowing
definition) applies no epsilon threshold: whenever it runs on two solid
colliders whose smaller-axis overlap is positive — including overlaps
at or below 2 pixels, where the claim says positions must stay put —
both entities' positions change.  (The `overlap > 2` guard exists only
in the first, shadowed definition.) -/
theorem no_epsilon_gate (a b : GameObject)
    (ha : a.col.isTrigger = false) (hb : b.col.isTrigger = false) :
    (overlapXOf a b < overlapYOf a b → 0 < overlapXOf a b → overlapXOf a b ≤ 2 →
      (resolveCollision a b).1.posX ≠ a.posX ∧ (resolveCollision a b).2.posX ≠ b.posX) ∧
    (¬(overlapXOf a b < overlapYOf a b) → 0 < overlapYOf a b → overlapYOf a b ≤ 2 →
      (resolveCollision a b).1.posY ≠ a.posY ∧ (resolveCollision a b).2.posY ≠ b.posY) := by
  constructor
  · intro hxy hpos _
    rw [resolveCollision_x a b ha hb hxy]
    have hm : (overlapXOf a b / 2) *
        (if a.getBounds.centerX < b.getBounds.centerX then (-1 : ℚ) else 1) ≠ 0 := by
      refine mul_ne_zero (ne_of_gt (div_pos hpos (by norm_num))) ?_
      split <;> norm_num
    constructor
    · simp only [ne_eq, add_right_eq_self]
      exact hm
    · simp only [ne_eq, sub_eq_self]
      exact hm
  · intro hxy hpos _
    rw [resolveCollision_y a b ha hb hxy]
    have hm : (overlapYOf a b / 2) *
        (if a.getBounds.centerY < b.getBounds.centerY then (-1 : ℚ) else 1) ≠ 0 := by
      refine mul_ne_zero (ne_of_gt (div_pos hpos (by norm_num))) ?_
      split <;> norm_num
    constructor
    · simp only [ne_eq, add_right_eq_self]
      exact hm
    · simp only [ne_eq, sub_eq_self]
      exact hm

/-- C4 witness: the amended theorem at the concrete 1-pixel-overlap
pair, with its hypotheses discharged there. -/
theorem no_epsilon_gate_witness :
    c4A.col.isTrigger = false ∧ c4B.col.isTrigger = false ∧
      ((overlapXOf c4A c4B < overlapYOf c4A c4B → 0 < overlapXOf c4A c4B →
          overlapXOf c4A c4B ≤ 2 →
          (resolveCollision c4A c4B).1.posX ≠ c4A.posX ∧
            (resolveCollision c4A c4B).2.posX ≠ c4B.posX) ∧
        (¬(overlapXOf c4A c4B < overlapYOf c4A c4B) → 0 < overlapYOf c4A c4B →
          overlapYOf c4A c4B ≤ 2 →
          (resolveCollision c4A c4B).1.posY ≠ c4A.posY ∧
            (resolveCollision c4A c4B).2.posY ≠ c4B.posY)) :=
  ⟨rfl, rfl, no_epsilon_gate c4A c4B rfl rfl⟩

/-- `timeStep` is positive. -/
theorem timeStep_pos : (0 : ℚ) < timeStep := by norm_num [timeStep]

/-- A `drainLoop` iteration count bounded by the floor: when the floor
of `acc / timeStep` is zero the accumulator is already below one step. -/
theorem lt_timeStep_of_floor_eq_zero {acc : ℚ} (h : Nat.floor (acc / timeStep) = 0) :
    acc < timeStep := by
  have := Nat.floor_eq_zero.mp h
  exact (div_lt_one timeStep_pos).mp this

/-- The drain emits only simulation-step events: never an input-manager
advance. -/
theorem drainLoop_no_input (acc : ℚ) : (drainLoop acc).2.count LoopEv.inputUpdate = 0 := by
  suffices H : ∀ n acc, Nat.floor (acc / timeStep) = n →
      (drainLoop acc).2.count LoopEv.inputUpdate = 0 from H _ acc rfl
  intro n
  induction n with
  | zero =>
      intro acc h0
      rw [drainLoop, dif_neg (not_le.mpr (lt_timeStep_of_floor_eq_zero h0))]
      rfl
  | succ n ih =>
      intro acc hn
      have hle : timeStep ≤ acc := by
        by_contra hlt
        rw [Nat.floor_eq_zero.mpr ((div_lt_one timeStep_pos).mpr (not_le.mp hlt))] at hn
        exact Nat.succ_ne_zero n hn.symm
      have hfl : Nat.floor ((acc - timeStep) / timeStep) = n := by
        have : (acc - timeStep) / timeStep = acc / timeStep - (1 : ℕ) := by
          push_cast
          rw [sub_div, div_self (ne_of_gt timeStep_pos)]
        rw [this, Nat.floor_sub_nat, hn]
        omega
      rw [drainLoop, dif_pos hle]
      simp only [List.count_append, ih _ hfl]
      rfl

/-- Closed form of the drain for a nonnegative accumulator: exactly
`⌊acc / timeStep⌋` iterations, each emitting a scene update followed by
a physics update and consuming one `timeStep`. -/
theorem drainLoop_eq (acc : ℚ) (h : 0 ≤ acc) :
    drainLoop acc = (acc - (Nat.floor (acc / timeStep) : ℚ) * timeStep,
      (List.replicate (Nat.floor (acc / timeStep))
        ([LoopEv.sceneUpdate, LoopEv.physicsUpdate])).join) := by
  suffices H : ∀ n acc, 0 ≤ acc → Nat.floor (acc / timeStep) = n →
      drainLoop acc = (acc - (n : ℚ) * timeStep,
        (List.replicate n ([LoopEv.sceneUpdate, LoopEv.physicsUpdate])).join) by
    rw [H _ acc h rfl]
  intro n
  induction n with
  | zero =>
      intro acc _ h0
      rw [drainLoop, dif_neg (not_le.mpr (lt_timeStep_of_floor_eq_zero h0))]
      simp
  | succ n ih =>
      intro acc _ hn
      have hle : timeStep ≤ acc := by
        by_contra hlt
        rw [Nat.floor_eq_zero.mpr ((div_lt_one timeStep_pos).mpr (not_le.mp hlt))] at hn
        exact Nat.succ_ne_zero n hn.symm
      have hfl : Nat.floor ((acc - timeStep) / timeStep) = n := by
        have : (acc - timeStep) / timeStep = acc / timeStep - (1 : ℕ) := by
          push_cast
          rw [sub_div, div_self (ne_of_gt timeStep_pos)]
        rw [this, Nat.floor_sub_nat, hn]
        omega
      have hnn : 0 ≤ acc - timeStep := sub_nonneg.mpr hle
      rw [drainLoop, dif_pos hle]
      simp only [ih _ hnn hfl]
      rw [Prod.mk.injEq]
      constructor
      · push_cast
        ring
      · rw [List.replicate_succ]
        rfl

/-- The clamped delta of one callback, written as a minimum. -/
theorem clamp_eq_min (d m : ℚ) : (if d > m then m else d) = min d m := by
  rcases le_or_lt d m with hdm | hdm
  · rw [if_neg (not_lt.mpr hdm), min_eq_left hdm]
  · rw [if_pos hdm, min_eq_right (le_of_lt hdm)]

/-- C6: one per-frame callback of the running loop clamps the elapsed
delta to `maxFrameTime`, adds it to the accumulator, runs exactly
`⌊accumulator / timeStep⌋` simulation steps — each a scene update
followed by a physics update, each subtracting exactly one `timeStep` —
leaving the accumulator nonnegative and below one step, and then renders
exactly once. -/
theorem loop_fixed_step_drain (s : LoopState) (t : ℚ)
    (hrun : s.isRunning = true) (hacc : 0 ≤ s.accumulator) (ht : s.lastTime ≤ t) :
    (loopCallback s t).2 =
      [LoopEv.inputUpdate] ++
        (List.replicate
          (Nat.floor ((s.accumulator + min (t - s.lastTime) maxFrameTime) / timeStep))
          ([LoopEv.sceneUpdate, LoopEv.physicsUpdate])).join ++
        [LoopEv.render, LoopEv.inputUpdate] ∧
      (loopCallback s t).1.accumulator =
        (s.accumulator + min (t - s.lastTime) maxFrameTime) -
          (Nat.floor ((s.accumulator + min (t - s.lastTime) maxFrameTime) / timeStep) : ℚ) *
            timeStep ∧
      0 ≤ (loopCallback s t).1.accumulator ∧
      (loopCallback s t).1.accumulator < timeStep ∧
      (loopCallback s t).2.count LoopEv.render = 1 := by
  have hd : 0 ≤ min (t - s.lastTime) maxFrameTime :=
    le_min (sub_nonneg.mpr ht) (by norm_num [maxFrameTime])
  have hacc0 : 0 ≤ s.accumulator + min (t - s.lastTime) maxFrameTime := by linarith
  have hcb : loopCallback s t =
      ({ isRunning := s.isRunning, lastTime := t,
         accumulator := (drainLoop (s.accumulator + min (t - s.lastTime) maxFrameTime)).1,
         fps := (if t - s.lastFpsTime ≥ 1000 then (s.frameCount + 1, 0, t)
            else (s.fps, s.frameCount + 1, s.lastFpsTime)).1,
         frameCount := (if t - s.lastFpsTime ≥ 1000 then (s.frameCount + 1, 0, t)
            else (s.fps, s.frameCount + 1, s.lastFpsTime)).2.1,
         lastFpsTime := (if t - s.lastFpsTime ≥ 1000 then (s.frameCount + 1, 0, t)
            else (s.fps, s.frameCount + 1, s.lastFpsTime)).2.2 },
        [LoopEv.inputUpdate] ++
          (drainLoop (s.accumulator + min (t - s.lastTime) maxFrameTime)).2 ++
          [LoopEv.render, LoopEv.inputUpdate]) := by
    unfold loopCallback
    rw [hrun]
    simp only [Bool.not_true, Bool.false_eq_true, if_false, clamp_eq_min]
  set n := Nat.floor ((s.accumulator + min (t - s.lastTime) maxFrameTime) / timeStep) with hnv
  have hdrain := drainLoop_eq (s.accumulator + min (t - s.lastTime) maxFrameTime) hacc0
  have hr0 : 0 ≤ (s.accumulator + min (t - s.lastTime) maxFrameTime) - (n : ℚ) * timeStep := by
    have h1 : (n : ℚ) ≤ (s.accumulator + min (t - s.lastTime) maxFrameTime) / timeStep := by
      rw [hnv]
      exact Nat.floor_le (div_nonneg hacc0 (le_of_lt timeStep_pos))
    have h2 := (le_div_iff₀ timeStep_pos).mp h1
    linarith
  have hr1 : (s.accumulator + min (t - s.lastTime) maxFrameTime) - (n : ℚ) * timeStep <
      timeStep := by
    have h1 : (s.accumulator + min (t - s.lastTime) maxFrameTime) / timeStep < (n : ℚ) + 1 := by
      rw [hnv]
      exact_mod_cast Nat.lt_floor_add_one
        ((s.accumulator + min (t - s.lastTime) maxFrameTime) / timeStep)
    have h2 := (div_lt_iff₀ timeStep_pos).mp h1
    linarith
  refine ⟨?_, ?_, ?_, ?_, ?_⟩
  · rw [hcb]
    rw [hdrain]
  · rw [hcb]
    simp only
    rw [hdrain]
  · rw [hcb]
    simp only
    rw [hdrain]
    exact hr0
  · rw [hcb]
    simp only
    rw [hdrain]
    exact hr1
  · rw [hcb, hdrain]
    simp only [List.count_append]
    have hjz : ((List.replicate n ([LoopEv.sceneUpdate, LoopEv.physicsUpdate])).join).count
        LoopEv.render = 0 := by
      induction n with
      | zero => rfl
      | succ k ihk =>
          rw [List.replicate_succ]
          show List.count LoopEv.render
            ([LoopEv.sceneUpdate, LoopEv.physicsUpdate] ++
              (List.replicate k ([LoopEv.sceneUpdate, LoopEv.physicsUpdate])).join) = 0
          rw [List.count_append, ihk]
          rfl
    rw [hjz]
    rfl

/-- C6 witness: the drain theorem at the freshly started loop with a
callback 40 ms later (two full steps drain, one render). -/
theorem loop_fixed_step_drain_witness :
    loopStart.isRunning = true ∧ 0 ≤ loopStart.accumulator ∧ loopStart.lastTime ≤ 40 ∧
      ((loopCallback loopStart 40).2 =
        [LoopEv.inputUpdate] ++
          (List.replicate
            (Nat.floor ((loopStart.accumulator + min (40 - loopStart.lastTime) maxFrameTime) /
              timeStep))
            ([LoopEv.sceneUpdate, LoopEv.physicsUpdate])).join ++
          [LoopEv.render, LoopEv.inputUpdate] ∧
        (loopCallback loopStart 40).1.accumulator =
          (loopStart.accumulator + min (40 - loopStart.lastTime) maxFrameTime) -
            (Nat.floor ((loopStart.accumulator + min (40 - loopStart.lastTime) maxFrameTime) /
              timeStep) : ℚ) * timeStep ∧
        0 ≤ (loopCallback loopStart 40).1.accumulator ∧
        (loopCallback loopStart 40).1.accumulator < timeStep ∧
        (loopCallback loopStart 40).2.count LoopEv.render = 1) :=
  ⟨rfl, le_refl 0, by norm_num [loopStart],
    loop_fixed_step_drain loopStart 40 rfl (le_refl 0) (by norm_num [loopStart])⟩

/-- C5 counterexample: in the very first callback of a freshly started
loop (40 ms of elapsed wall time), the input manager's edge-state
advance runs twice — once before the fixed-step drain and once after
scheduling the next frame — not exactly once. -/
theorem input_edge_advance_counterexample :
    (loopCallback loopStart 40).2.count LoopEv.inputUpdate = 2 ∧
      ¬((loopCallback loopStart 40).2.count LoopEv.inputUpdate = 1) := by
  have h : (loopCallback loopStart 40).2.count LoopEv.inputUpdate = 2 := by
    unfold loopCallback
    simp only [loopStart, Bool.not_true, Bool.false_eq_true, if_false]
    simp only [List.count_append, drainLoop_no_input]
    rfl
  exact ⟨h, by rw [h]; omega⟩

/-- C5 (amended): in every per-frame callback of the running game loop,
the input manager's edge-state advance (`InputManager.update`, copying
current key states into `previousKeys`) is performed exactly twice —
once before the fixed-step drain and once after scheduling the next
callback — independentiy of how many simulation steps run, and never
once per simulation step. -/
theorem input_edge_advance_twice (s : LoopState) (t : ℚ) (hrun : s.isRunning = true) :
    (loopCallback s t).2.count LoopEv.inputUpdate = 2 := by
  unfold loopCallback
  rw [hrun]
  simp only [Bool.not_true, Bool.false_eq_true, if_false]
  simp only [List.count_append, drainLoop_no_input]
  rfl

/-- C5 witness: the amended count at the freshly started loop. -/
theorem input_edge_advance_twice_witness :
    loopStart.isRunning = true ∧
      (loopCallback loopStart 40).2.count LoopEv.inputUpdate = 2 :=
  ⟨rfl, input_edge_advance_twice loopStart 40 rfl⟩

/-- C8: for an entity holding exactly one attached component instance
`c` whose concrete class (`c.className`, playing the subtype S) derives
from a distinct base class `B` (`instOf c B`), `getComponent` under
either type key returns that same instance — `B` via the `instanceof`
scan that populates `B`'s cache bucket, the concrete name via the
exact-type cache hit — and after `removeComponent` with either key
(performed after both lookups, so both buckets are populated), the
instance is purged from the component list and from every cache bucket,
and neither lookup returns a stale or duplicate result. -/
theorem polymorphic_lookup_and_removal (instOf : Comp → String → Bool) (c : Comp) (B : String)
    (hne : c.className ≠ B) (hS : instOf c c.className = true) (hB : instOf c B = true) :
    (ComponentStore.getComponent instOf (ComponentStore.addComponent ⟨[], []⟩ c) B).1 = some c ∧
      (ComponentStore.getComponent instOf (ComponentStore.addComponent ⟨[], []⟩ c)
        c.className).1 = some c ∧
      (ComponentStore.removeComponent instOf
          (ComponentStore.getComponent instOf (ComponentStore.addComponent ⟨[], []⟩ c) B).2
          B).components = [] ∧
      (ComponentStore.removeComponent instOf
          (ComponentStore.getComponent instOf (ComponentStore.addComponent ⟨[], []⟩ c) B).2
          B).componentCache = [(c.className, []), (B, [])] ∧
      (ComponentStore.removeComponent instOf
          (ComponentStore.getComponent instOf (ComponentStore.addComponent ⟨[], []⟩ c) B).2
          c.className).components = [] ∧
      (ComponentStore.removeComponent instOf
          (ComponentStore.getComponent instOf (ComponentStore.addComponent ⟨[], []⟩ c) B).2
          c.className).componentCache = [(c.className, []), (B, [])] ∧
      (ComponentStore.getComponent instOf
          (ComponentStore.removeComponent instOf
            (ComponentStore.getComponent instOf (ComponentStore.addComponent ⟨[], []⟩ c) B).2 B)
          c.className).1 = none ∧
      (ComponentStore.getComponent instOf
          (ComponentStore.removeComponent instOf
            (ComponentStore.getComponent instOf (ComponentStore.addComponent ⟨[], []⟩ c) B).2 B)
          B).1 = none := by
  have hadd : ComponentStore.addComponent ⟨[], []⟩ c =
      ⟨[c], [(c.className, [c])]⟩ := rfl
  have hgetB : ComponentStore.getComponent instOf (⟨[c], [(c.className, [c])]⟩ : ComponentStore)
      B = (some c, ⟨[c], [(c.className, [c]), (B, [c])]⟩) := by
    unfold ComponentStore.getComponent ComponentStore.cachePush ComponentStore.cacheSet
    simp [ComponentStore.cacheGet, List.find?, hne, hB]
  have hgetS : ComponentStore.getComponent instOf (⟨[c], [(c.className, [c])]⟩ : ComponentStore)
      c.className = (some c, ⟨[c], [(c.className, [c])]⟩) := by
    unfold ComponentStore.getComponent ComponentStore.cacheGet
    simp [List.find?]
  have hgo1getB : ComponentStore.getComponent instOf
      (⟨[c], [(c.className, [c]), (B, [c])]⟩ : ComponentStore) B =
      (some c, ⟨[c], [(c.className, [c]), (B, [c])]⟩) := by
    unfold ComponentStore.getComponent ComponentStore.cacheGet
    simp [List.find?, hne]
  have hgo1getS : ComponentStore.getComponent instOf
      (⟨[c], [(c.className, [c]), (B, [c])]⟩ : ComponentStore) c.className =
      (some c, ⟨[c], [(c.className, [c]), (B, [c])]⟩) := by
    unfold ComponentStore.getComponent ComponentStore.cacheGet
    simp [List.find?]
  have hremB : ComponentStore.removeComponent instOf
      (⟨[c], [(c.className, [c]), (B, [c])]⟩ : ComponentStore) B =
      ⟨[], [(c.className, []), (B, [])]⟩ := by
    unfold ComponentStore.removeComponent
    rw [hgo1getB]
    simp [ComponentStore.eraseFirst]
  have hremS : ComponentStore.removeComponent instOf
      (⟨[c], [(c.className, [c]), (B, [c])]⟩ : ComponentStore) c.className =
      ⟨[], [(c.className, []), (B, [])]⟩ := by
    unfold ComponentStore.removeComponent
    rw [hgo1getS]
    simp [ComponentStore.eraseFirst]
  have hgoneS : ComponentStore.getComponent instOf
      (⟨[], [(c.className, []), (B, [])]⟩ : ComponentStore) c.className =
      (none, ⟨[], [(c.className, []), (B, [])]⟩) := by
    unfold ComponentStore.getComponent
    simp [ComponentStore.cacheGet, List.find?]
  have hgoneB : ComponentStore.getComponent instOf
      (⟨[], [(c.className, []), (B, [])]⟩ : ComponentStore) B =
      (none, ⟨[], [(c.className, []), (B, [])]⟩) := by
    unfold ComponentStore.getComponent
    simp [ComponentStore.cacheGet, List.find?, hne]
  rw [hadd, hgetB, hgetS, hremB, hremS, hgoneS, hgoneB]
  exact ⟨rfl, rfl, rfl, rfl, rfl, rfl, rfl, rfl⟩

/-- C8 witness: the lookup/removal theorem at a concrete
`PlatformerPlayer` component instance requested under the base key
`"Player"`. -/
theorem polymorphic_lookup_and_removal_witness :
    compDemo.className ≠ "Player" ∧ instOfDemo compDemo compDemo.className = true ∧
      instOfDemo compDemo "Player" = true ∧
      ((ComponentStore.getComponent instOfDemo (ComponentStore.addComponent ⟨[], []⟩ compDemo)
          "Player").1 = some compDemo ∧
        (ComponentStore.getComponent instOfDemo (ComponentStore.addComponent ⟨[], []⟩ compDemo)
          compDemo.className).1 = some compDemo ∧
        (ComponentStore.removeComponent instOfDemo
            (ComponentStore.getComponent instOfDemo
              (ComponentStore.addComponent ⟨[], []⟩ compDemo) "Player").2
            "Player").components = [] ∧
        (ComponentStore.removeComponent instOfDemo
            (ComponentStore.getComponent instOfDemo
              (ComponentStore.addComponent ⟨[], []⟩ compDemo) "Player").2
            "Player").componentCache = [(compDemo.className, []), ("Player", [])] ∧
        (ComponentStore.removeComponent instOfDemo
            (ComponentStore.getComponent instOfDemo
              (ComponentStore.addComponent ⟨[], []⟩ compDemo) "Player").2
            compDemo.className).components = [] ∧
        (ComponentStore.removeComponent instOfDemo
            (ComponentStore.getComponent instOfDemo
              (ComponentStore.addComponent ⟨[], []⟩ compDemo) "Player").2
            compDemo.className).componentCache = [(compDemo.className, []), ("Player", [])] ∧
        (ComponentStore.getComponent instOfDemo
            (ComponentStore.removeComponent instOfDemo
              (ComponentStore.getComponent instOfDemo
                (ComponentStore.addComponent ⟨[], []⟩ compDemo) "Player").2 "Player")
            compDemo.className).1 = none ∧
        (ComponentStore.getComponent instOfDemo
            (ComponentStore.removeComponent instOfDemo
              (ComponentStore.getComponent instOfDemo
                (ComponentStore.addComponent ⟨[], []⟩ compDemo) "Player").2 "Player")
            "Player").1 = none) :=
  ⟨by decide, rfl, rfl,
    polymorphic_lookup_and_removal instOfDemo compDemo "Player" (by decide) rfl rfl⟩

end Theorems

end SeedFrames
